import Mathlib

/-
Verification of the mad-wrapped stats aggregation engine.

This file gives a shallow embedding, in Lean 4, of the statistics
computations of the mad-wrapped repository (api/src/utils/stats/) and
proves properties of them.

Modelling conventions, used consistently below:
- SQL rows of the visits table are values of the structure Visit.
  Calendar dates are integer day numbers (day 0 = 1970-01-01, a
  Thursday); two dates are calendar-consecutive iff they differ by 1.
  Times of day are minutes since midnight, so EXTRACT(HOUR FROM t) is
  t / 60.  Timestamps (creation_date_time) are minutes since the epoch;
  cache clocks (Date.now()) are milliseconds since the epoch, as in JS.
- Nullable SQL columns are Option values.  SQL aggregates over a query
  result are List operations: COUNT(*) FILTER is (List.filter _).length,
  GROUP BY k is indexing over (List.map k _).dedup, COUNT(DISTINCT e)
  is (List.map e _).dedup.length (SQL GROUP BY / DISTINCT treat NULLs
  as equal, exactly as equality on Option does).  ORDER BY c DESC with
  LIMIT is a stable merge sort followed by taking a prefix; the SQL
  order of ties is unspecified, the model fixes the stable order.
- Numeric SQL values and JS numbers are modelled as exact rationals
  (JS float arithmetic is exact at all realistic magnitudes involved).
  ROUND(numeric) in PostgreSQL rounds half away from zero (pgRound),
  Math.round in JS rounds half up (jsRound); the two agree on the
  non-negative values that actually occur.
- The reporting-year window (the YEAR_START / YEAR_END literals of
  statsTypes.ts, and the hard-coded 2025 literals of coachStats.ts) is
  abstracted into explicit window parameters ys, ye, per the design
  note of the spec; client/peer queries filter ys ≤ d ≤ ye and the
  coach queries filter ys ≤ d < ye, as in the source.
- Result fields not needed by any verified property (display names,
  top coach, time-slot strings, monthly/yearly breakdowns, class-type
  mix) are omitted from the embedded result records.
-/

namespace MadWrapped

/-! ## Rounding -/

/-- JS Math.round: round half towards positive infinity. -/
def jsRound (q : ℚ) : ℤ := ⌊q + 1/2⌋

/-- PostgreSQL ROUND(numeric): round half away from zero. -/
def pgRound (q : ℚ) : ℤ := if 0 ≤ q then ⌊q + 1/2⌋ else -⌊-q + 1/2⌋

/-! ## Data model: the visit store -/

/-- One row of the visits table (the attributes the stats engine reads). -/
structure Visit where
  client_dupont_location_id : String
  class_date : ℤ
  class_time : Option ℤ
  location_name : Option String
  trainer_first_name : Option String
  trainer_last_name : Option String
  cancelled : Bool
  missed : Bool
  creation_date_time : Option ℤ
deriving DecidableEq, Repr

/-- Attended means NOT cancelled AND NOT missed. -/
def Visit.attended (v : Visit) : Bool := !v.cancelled && !v.missed

/-- One row of the clients table (the member directory). -/
structure Client where
  dupont_location_id : String
  name : String
  email : String
deriving DecidableEq, Repr

/-- EXTRACT(HOUR FROM class_time) < 8, false on NULL (SQL unknown). -/
def isEarlyHour (t : Option ℤ) : Bool :=
  match t with
  | some t => t / 60 < 8
  | none => false

/-! ## Peer comparison: percentile ranks (peerStats.ts, calculatePercentile) -/

/-- Translation of calculatePercentile: if the population is empty the
result is 0, otherwise Math.round((belowCount / length) * 100) where
belowCount counts the values ≤ the given value. -/
def calculatePercentile (value : ℚ) (sortedValues : List ℚ) : ℤ :=
  if sortedValues.length = 0 then 0
  else jsRound ((((sortedValues.filter (fun v => v ≤ value)).length : ℚ) /
    sortedValues.length) * 100)

/-! ## Longest streak (clientStats.ts, CTEs visit_dates / streaks /
streak_lengths / longest_streak)

The SQL computes, over the distinct sorted attended dates, the window
value visit_date - ROW_NUMBER() (gaps-and-islands key), groups by that
key, counts each group, and takes COALESCE(MAX(count), 1). -/

/-- Keys visit_date - ROW_NUMBER() of the streaks CTE; n is the row
number of the first listed date (ROW_NUMBER starts at 1). -/
def streakKeysFrom (n : ℤ) : List ℤ → List ℤ
  | [] => []
  | d :: ds => (d - n) :: streakKeysFrom (n + 1) ds

/-- Key sequence of the streaks CTE over the sorted distinct dates. -/
def streakKeys (ds : List ℤ) : List ℤ := streakKeysFrom 1 ds

/-- Group sizes of the streak_lengths CTE: one count per distinct key. -/
def streakLengths (ds : List ℤ) : List ℕ :=
  (streakKeys ds).dedup.map (fun k => (streakKeys ds).count k)

/-- COALESCE(MAX(streak_length), 1): MAX over the (finite, non-negative)
group counts, or 1 when there are no groups at all. -/
def longestStreakSql (ds : List ℤ) : ℕ :=
  if streakLengths ds = [] then 1 else (streakLengths ds).foldr max 0

/-- Chunk a list into maximal blocks of adjacent elements related by f,
returning the block lengths; prev is the last element consumed and cur
the size of the block being built. -/
def chunksGo (f : ℤ → ℤ → Bool) : ℤ → ℕ → List ℤ → List ℕ
  | _, cur, [] => [cur]
  | prev, cur, d :: ds =>
    if f prev d then chunksGo f d (cur + 1) ds else cur :: chunksGo f d 1 ds

/-- Lengths of the maximal blocks of adjacent elements related by f. -/
def chunkLens (f : ℤ → ℤ → Bool) : List ℤ → List ℕ
  | [] => []
  | d :: ds => chunksGo f d 1 ds

/-- Calendar-consecutive: the next date is exactly one day later. -/
def isSucc (a b : ℤ) : Bool := b = a + 1

/-- Key equality, the grouping relation of the streak_lengths CTE. -/
def isEqKey (a b : ℤ) : Bool := a = b

/-- Lengths of the maximal runs of calendar-consecutive dates (the
notion of run used by the specification's streak algorithm). -/
def runLengths (ds : List ℤ) : List ℕ := chunkLens isSucc ds

/-- Length of the longest maximal run of calendar-consecutive dates;
0 for the empty date set. -/
def longestRun (ds : List ℤ) : ℕ := (runLengths ds).foldr max 0

/-! ## Per-member stats (clientStats.ts, computeClientStats) -/

/-- The client_visits CTE: this member's visits inside the reporting
window (class_date >= YEAR_START AND class_date <= YEAR_END). -/
def clientWindowVisits (vs : List Visit) (clientId : String) (ys ye : ℤ) :
    List Visit :=
  vs.filter (fun v =>
    v.client_dupont_location_id == clientId &&
    ys ≤ v.class_date && v.class_date ≤ ye)

/-- The visit_dates CTE: SELECT DISTINCT class_date of attended visits. -/
def attendedDates (cv : List Visit) : List ℤ :=
  ((cv.filter (·.attended)).map (·.class_date)).dedup

/-- Distinct attended dates in ascending order (the window function of
the streaks CTE runs over ORDER BY visit_date). -/
def sortedAttendedDates (cv : List Visit) : List ℤ :=
  (attendedDates cv).insertionSort (· ≤ ·)

/-- Late booking: attended, non-null booking timestamp and class time,
and class start minus booking creation below 2 hours (120 minutes). -/
def isLateBooking (v : Visit) : Bool :=
  v.attended &&
  (match v.creation_date_time, v.class_time with
   | some c, some t => decide (v.class_date * 1440 + t - c < 120)
   | _, _ => false)

/-- The early_bird CTE: over the member's window visits with non-null
class_time, 0 if no attended ones, else ROUND(100 * attended-before-8am
/ attended). -/
def clientEarlyBird (cv : List Visit) : ℤ :=
  let tv := cv.filter (fun v => v.class_time.isSome)
  let na := (tv.filter (·.attended)).length
  let ne := (tv.filter (fun v => v.attended && isEarlyHour v.class_time)).length
  if na = 0 then 0 else pgRound ((ne * 100 : ℚ) / na)

/-- DATE_TRUNC('week', d) as a week index: Monday-aligned week number
(day 0 = 1970-01-01 was a Thursday, so day 4 was a Monday). -/
def weekOf (d : ℤ) : ℤ := (d + 3).fdiv 7

/-- The weekly_classes / perfect_weeks CTEs: group the member's window
visits by week, count attended visits per week, count weeks with ≥ 4. -/
def perfectWeeksOf (cv : List Visit) : ℕ :=
  let wks := (cv.map (fun v => weekOf v.class_date)).dedup
  (wks.filter (fun wk =>
    4 ≤ (cv.filter (fun v => v.attended && weekOf v.class_date == wk)).length)).length

/-- The location_stats CTE grouping: attended visits with non-null
location, grouped by location with counts, ORDER BY count DESC. -/
def locationCounts (cv : List Visit) : List (String × ℕ) :=
  let av := cv.filter (fun v => v.attended && v.location_name.isSome)
  let names := (av.filterMap (·.location_name)).dedup
  (names.map (fun l =>
    (l, (av.filter (fun v => v.location_name == some l)).length))).insertionSort
    (fun a b => b.2 ≤ a.2)

/-- SUM(COUNT(*)) OVER () of location_stats: all attended visits with a
non-null location. -/
def locationTotal (cv : List Visit) : ℕ :=
  (cv.filter (fun v => v.attended && v.location_name.isSome)).length

/-- locationBreakdown: name, count and ROUND(100 * count / total). -/
def locationBreakdownOf (cv : List Visit) : List (String × ℕ × ℤ) :=
  (locationCounts cv).map (fun p =>
    (p.1, p.2, pgRound ((p.2 * 100 : ℚ) / locationTotal cv)))

/-- favoriteLocation: the top row of location_stats, or the
("Unknown", 0) sentinel when there is none. -/
def favoriteLocationOf (cv : List Visit) : String × ℤ :=
  match (locationCounts cv).head? with
  | some p => (p.1, pgRound ((p.2 * 100 : ℚ) / locationTotal cv))
  | none => ("Unknown", 0)

/-- ClientStatsResult, restricted to fields used by verified claims. -/
structure ClientStatsResult where
  totalClasses : ℕ
  totalCancellations : ℕ
  totalLateBookings : ℕ
  longestStreak : ℕ
  earlyBirdScore : ℤ
  perfectMadWeeks : ℕ
  favoriteLocation : String × ℤ
  locationBreakdown : List (String × ℕ × ℤ)
deriving DecidableEq, Repr

/-- computeClientStats: null when the member id does not resolve in the
clients directory, otherwise the per-member stats record over the
member's window visits. -/
def computeClientStats (clients : List Client) (vs : List Visit)
    (clientId : String) (ys ye : ℤ) : Option ClientStatsResult :=
  match clients.find? (fun c => c.dupont_location_id == clientId) with
  | none => none
  | some _ =>
    let cv := clientWindowVisits vs clientId ys ye
    some
      { totalClasses := (cv.filter (·.attended)).length
        totalCancellations := (cv.filter (fun v => v.cancelled || v.missed)).length
        totalLateBookings := (cv.filter isLateBooking).length
        longestStreak := longestStreakSql (sortedAttendedDates cv)
        earlyBirdScore := clientEarlyBird cv
        perfectMadWeeks := perfectWeeksOf cv
        favoriteLocation := favoriteLocationOf cv
        locationBreakdown := locationBreakdownOf cv }

/-! ## Peer population cache (peerStats.ts) -/

/-- One member's aggregate row (interface MemberStats). -/
structure MemberStats where
  clientId : String
  totalClasses : ℕ
  classesPerMonth : ℚ
  earlyBirdScore : ℚ
  lateBookings : ℕ
  cancellations : ℕ
  perfectWeeks : ℕ
deriving DecidableEq, Repr

/-- Population averages (interface PeerAverages). -/
structure PeerAverages where
  avgClassesPerMonth : ℚ
  avgEarlyBirdScore : ℚ
  avgLateBookings : ℚ
  avgCancellations : ℚ
deriving DecidableEq, Repr

/-- The averages computation shared by the snapshot and live paths:
sums divided by (stats.length || 1). -/
def computeAverages (stats : List MemberStats) : PeerAverages :=
  let count : ℚ := if stats.length = 0 then 1 else stats.length
  { avgClassesPerMonth := (stats.map (·.classesPerMonth)).sum / count
    avgEarlyBirdScore := (stats.map (·.earlyBirdScore)).sum / count
    avgLateBookings := (stats.map (fun s => (s.lateBookings : ℚ))).sum / count
    avgCancellations := (stats.map (fun s => (s.cancellations : ℚ))).sum / count }

/-- One member's row of the all_member_stats_live query (the member_stats
and member_perfect_weeks CTEs, restricted to one client id). -/
def liveRowFor (vs : List Visit) (cid : String) (ys ye : ℤ) : MemberStats :=
  let cv := clientWindowVisits vs cid ys ye
  let tc := (cv.filter (·.attended)).length
  { clientId := cid
    totalClasses := tc
    classesPerMonth := if tc = 0 then 0 else (tc : ℚ) / 12
    earlyBirdScore :=
      if tc = 0 then 0
      else ((cv.filter (fun v =>
        v.attended && v.class_time.isSome && isEarlyHour v.class_time)).length
        * 100 : ℚ) / tc
    lateBookings := (cv.filter isLateBooking).length
    cancellations := (cv.filter (fun v => v.cancelled || v.missed)).length
    perfectWeeks := perfectWeeksOf cv }

/-- GROUP BY client_dupont_location_id of the live query: the distinct
member ids with at least one visit in the window. -/
def liveMemberIds (vs : List Visit) (ys ye : ℤ) : List String :=
  ((vs.filter (fun v => ys ≤ v.class_date && v.class_date ≤ ye)).map
    (·.client_dupont_location_id)).dedup

/-- Result rows of the all_member_stats_live query. -/
def liveStats (vs : List Visit) (ys ye : ℤ) : List MemberStats :=
  (liveMemberIds vs ys ye).map (fun cid => liveRowFor vs cid ys ye)

/-- A PostgreSQL error, identified by its SQLSTATE code
("42P01" = undefined_table). -/
structure PgError where
  code : String
deriving DecidableEq, Repr

/-- One row of the mv_peer_stats materialized view. -/
structure MVPeerRow where
  client_dupont_location_id : String
  total_classes : ℕ
  classes_per_month : ℚ
  early_bird_score : ℚ
  late_bookings : ℕ
  cancellations : ℕ
  perfect_weeks : ℕ
  computed_at : ℤ
deriving DecidableEq, Repr

/-- Row mapping of tryGetPeerStatsFromMaterializedView. -/
def mvRowToMemberStats (r : MVPeerRow) : MemberStats :=
  { clientId := r.client_dupont_location_id
    totalClasses := r.total_classes
    classesPerMonth := r.classes_per_month
    earlyBirdScore := r.early_bird_score
    lateBookings := r.late_bookings
    cancellations := r.cancellations
    perfectWeeks := r.perfect_weeks }

/-- The store, as seen by the peer-stats loader: the outcome of the
snapshot query (rows, or a raised error), the visits table read by the
live query, and an optional error raised by the live query itself
(modelling connectivity failure of that query). -/
structure PeerStore where
  mv : Except PgError (List MVPeerRow)
  visits : List Visit
  liveErr : Option PgError
deriving Repr

/-- The module-level cache variables of peerStats.ts. -/
structure PeerCacheState where
  memberStatsCache : Option (List MemberStats)
  peerAveragesCache : Option PeerAverages
  peerStatsCacheTime : ℤ
deriving DecidableEq, Repr

/-- Result of one loadMemberStats call: the returned stats and averages,
the cache state after the call, and how many store queries the call
issued (the snapshot query and the live query each count as one). -/
structure LoadOutcome where
  stats : List MemberStats
  averages : PeerAverages
  state : PeerCacheState
  queries : ℕ
deriving DecidableEq, Repr

/-- PEER_STATS_CACHE_TTL_MS = 60 * 60 * 1000 (1 hour). -/
def PEER_STATS_CACHE_TTL_MS : ℤ := 60 * 60 * 1000

/-- MV_STALENESS_THRESHOLD_MS = 24 * 60 * 60 * 1000 (24 hours). -/
def MV_STALENESS_THRESHOLD_MS : ℤ := 24 * 60 * 60 * 1000

/-- tryGetPeerStatsFromMaterializedView: none when the view is empty,
stale, or the query raised (the catch returns null both for the
undefined_table code 42P01 and, after logging, for every other error);
on success, stats, averages and the updated cache. -/
def tryGetPeerStatsFromMaterializedView (now : ℤ) (store : PeerStore) :
    Option (List MemberStats × PeerAverages × PeerCacheState) :=
  match store.mv with
  | .error e => if e.code = "42P01" then none else none
  | .ok rows =>
    match rows with
    | [] => none
    | first :: _ =>
      if now - first.computed_at > MV_STALENESS_THRESHOLD_MS then none
      else
        let stats := rows.map mvRowToMemberStats
        let averages := computeAverages stats
        some (stats, averages,
          { memberStatsCache := some stats
            peerAveragesCache := some averages
            peerStatsCacheTime := now })

/-- loadMemberStatsLive: the live query over the visit store; raises the
store error if the query fails, otherwise returns the computed stats and
averages and caches them with a fresh timestamp. -/
def loadMemberStatsLive (now : ℤ) (store : PeerStore) (ys ye : ℤ) :
    Except PgError LoadOutcome :=
  match store.liveErr with
  | some e => .error e
  | none =>
    let stats := liveStats store.visits ys ye
    let averages := computeAverages stats
    .ok
      { stats := stats
        averages := averages
        state :=
          { memberStatsCache := some stats
            peerAveragesCache := some averages
            peerStatsCacheTime := now }
        queries := 1 }

/-- The fall-through of loadMemberStats past the in-process cache: try
the materialized view (one query), else the live path (one more). -/
def loadMemberStatsFallback (now : ℤ) (store : PeerStore) (ys ye : ℤ) :
    Except PgError LoadOutcome :=
  match tryGetPeerStatsFromMaterializedView now store with
  | some (stats, averages, st') =>
    .ok { stats := stats, averages := averages, state := st', queries := 1 }
  | none =>
    (loadMemberStatsLive now store ys ye).map
      (fun o => { o with queries := o.queries + 1 })

/-- loadMemberStats: if both cache variables are set and the entry is
younger than the TTL, return it unchanged without touching the store;
otherwise fall through to the snapshot / live paths. -/
def loadMemberStats (st : PeerCacheState) (now : ℤ) (store : PeerStore)
    (ys ye : ℤ) : Except PgError LoadOutcome :=
  match st.memberStatsCache, st.peerAveragesCache with
  | some s, some a =>
    if now - st.peerStatsCacheTime < PEER_STATS_CACHE_TTL_MS then
      .ok { stats := s, averages := a, state := st, queries := 0 }
    else loadMemberStatsFallback now store ys ye
  | _, _ => loadMemberStatsFallback now store ys ye

/-! ## Global stats (globalStats.ts) -/

/-- GlobalStatsResult (all fields of the source interface). -/
structure GlobalStatsResult where
  totalMembers : ℕ
  totalClasses : ℕ
  averageClassesPerMember : ℚ
  mostPopularTimeSlot : String
  mostPopularDay : String
  mostPopularCoach : String
  averageEarlyBirdScore : ℤ
deriving DecidableEq, Repr

/-- The single row of the mv_global_stats materialized view. -/
structure MVGlobalRow where
  total_members : ℕ
  total_classes : ℕ
  most_popular_time_slot : Option String
  most_popular_day : Option String
  most_popular_coach : Option String
  avg_early_bird_score : Option ℤ
  computed_at : ℤ
deriving DecidableEq, Repr

/-- The store, as seen by the global-stats computer (same shape as the
peer one: snapshot outcome, visit table, optional live-query error). -/
structure GlobalStore where
  mv : Except PgError (List MVGlobalRow)
  visits : List Visit
  liveErr : Option PgError
deriving Repr

/-- The module-level cache variables of globalStats.ts. -/
structure GlobalCacheState where
  globalStatsCache : Option GlobalStatsResult
  globalStatsCacheTime : ℤ
deriving DecidableEq, Repr

/-- GLOBAL_STATS_CACHE_TTL_MS = 60 * 60 * 1000 (1 hour). -/
def GLOBAL_STATS_CACHE_TTL_MS : ℤ := 60 * 60 * 1000

/-- MV_STALENESS_THRESHOLD_MS of globalStats.ts (24 hours). -/
def GLOBAL_MV_STALENESS_THRESHOLD_MS : ℤ := 24 * 60 * 60 * 1000

/-- Two-digit zero padding of TO_CHAR. -/
def pad2 (n : ℤ) : String := if n < 10 then "0" ++ toString n else toString n

/-- TO_CHAR(t, 'HH12:MI AM') for t minutes after midnight. -/
def formatTime12h (t : ℤ) : String :=
  let h := t / 60
  let m := t % 60
  pad2 ((h + 11) % 12 + 1) ++ ":" ++ pad2 m ++ " " ++
    (if h < 12 then "AM" else "PM")

/-- Day-of-week name of EXTRACT(DOW) key k = date mod 7 (day 0 =
1970-01-01, a Thursday); TO_CHAR 'Day' blank-padding is dropped, the
TS callers trim it anyway. -/
def dayOfWeekName (k : ℤ) : String :=
  if k = 0 then "Thursday"
  else if k = 1 then "Friday"
  else if k = 2 then "Saturday"
  else if k = 3 then "Sunday"
  else if k = 4 then "Monday"
  else if k = 5 then "Tuesday"
  else "Wednesday"

/-- GROUP BY key, ORDER BY COUNT(*) DESC, LIMIT 1: the key of highest
multiplicity (stable order on ties; SQL leaves ties unspecified). -/
def topByCount {α : Type} [DecidableEq α] (keys : List α) : Option α :=
  (((keys.dedup.map (fun k => (k, keys.count k))).insertionSort
    (fun a b => b.2 ≤ a.2)).head?).map (·.1)

/-- computeGlobalStatsLive: the global_stats_live query over the visit
store, building the result record and caching it with a fresh
timestamp. -/
def computeGlobalStatsLive (now : ℤ) (store : GlobalStore) (ys ye : ℤ) :
    Except PgError (GlobalStatsResult × GlobalCacheState) :=
  match store.liveErr with
  | some e => .error e
  | none =>
    let yv := store.visits.filter (fun v => ys ≤ v.class_date && v.class_date ≤ ye)
    let av := yv.filter (·.attended)
    let totalMembers := (yv.map (·.client_dupont_location_id)).dedup.length
    let totalClasses := av.length
    let memberIds := (av.map (·.client_dupont_location_id)).dedup
    let scores := memberIds.map (fun cid =>
      let mv := av.filter (fun v => v.client_dupont_location_id == cid)
      (((mv.filter (fun v => v.class_time.isSome && isEarlyHour v.class_time)).length
        * 100 : ℚ) / mv.length))
    let result : GlobalStatsResult :=
      { totalMembers := totalMembers
        totalClasses := totalClasses
        averageClassesPerMember :=
          if 0 < totalMembers then (totalClasses : ℚ) / totalMembers else 0
        mostPopularTimeSlot :=
          ((topByCount (av.filterMap (·.class_time))).map formatTime12h).getD
            "07:30 AM"
        mostPopularDay :=
          ((topByCount (av.map (fun v => v.class_date.emod 7))).map
            dayOfWeekName).getD "Monday"
        mostPopularCoach :=
          (topByCount ((av.filter (·.trainer_first_name.isSome)).map (fun v =>
            v.trainer_first_name.getD "" ++ " " ++
              v.trainer_last_name.getD ""))).getD "Unknown"
        averageEarlyBirdScore :=
          if scores = [] then 0 else pgRound (scores.sum / scores.length) }
    .ok (result, { globalStatsCache := some result, globalStatsCacheTime := now })

/-- tryGetGlobalStatsFromMaterializedView: none when the view is empty,
stale, or the query raised (the catch returns null both for 42P01 and,
after logging, for every other error); otherwise the snapshot row
mapped onto the result record with its null-defaults. -/
def tryGetGlobalStatsFromMaterializedView (now : ℤ) (store : GlobalStore) :
    Option GlobalStatsResult :=
  match store.mv with
  | .error e => if e.code = "42P01" then none else none
  | .ok rows =>
    match rows.head? with
    | none => none
    | some row =>
      if now - row.computed_at > GLOBAL_MV_STALENESS_THRESHOLD_MS then none
      else
        some
          { totalMembers := row.total_members
            totalClasses := row.total_classes
            averageClassesPerMember :=
              if 0 < row.total_members then
                (row.total_classes : ℚ) / row.total_members
              else 0
            mostPopularTimeSlot := row.most_popular_time_slot.getD "07:30 AM"
            mostPopularDay := row.most_popular_day.getD "Monday"
            mostPopularCoach := row.most_popular_coach.getD "Unknown"
            averageEarlyBirdScore := row.avg_early_bird_score.getD 0 }

/-- computeGlobalStats: in-process cache within its TTL, else the
snapshot (caching its value), else the live path. -/
def computeGlobalStats (st : GlobalCacheState) (now : ℤ) (store : GlobalStore)
    (ys ye : ℤ) : Except PgError (GlobalStatsResult × GlobalCacheState) :=
  match st.globalStatsCache with
  | some r =>
    if now - st.globalStatsCacheTime < GLOBAL_STATS_CACHE_TTL_MS then .ok (r, st)
    else
      match tryGetGlobalStatsFromMaterializedView now store with
      | some r' =>
        .ok (r', { globalStatsCache := some r', globalStatsCacheTime := now })
      | none => computeGlobalStatsLive now store ys ye
  | none =>
    match tryGetGlobalStatsFromMaterializedView now store with
    | some r' =>
      .ok (r', { globalStatsCache := some r', globalStatsCacheTime := now })
    | none => computeGlobalStatsLive now store ys ye

/-! ## Coach stats (coachStats.ts, computeCoachStats) -/

/-- The all_visits CTE: the coach's attended visits in the (half-open)
coach reporting window. -/
def coachWindowVisits (vs : List Visit) (fn ln : String) (ys ye : ℤ) :
    List Visit :=
  vs.filter (fun v =>
    v.trainer_first_name == some fn && v.trainer_last_name == some ln &&
    v.attended && ys ≤ v.class_date && v.class_date < ye)

/-- The (class_date, class_time, location_name) tuple identifying a
class session (GROUP BY / DISTINCT treat NULLs as equal, like Option). -/
def sessionTuple (v : Visit) : ℤ × Option ℤ × Option String :=
  (v.class_date, v.class_time, v.location_name)

/-- The class_sessions CTE: the distinct session tuples of the coach's
attended window visits. -/
def coachSessions (vs : List Visit) (fn ln : String) (ys ye : ℤ) :
    List (ℤ × Option ℤ × Option String) :=
  ((coachWindowVisits vs fn ln ys ye).map sessionTuple).dedup

/-- The rows of all_visits LEFT JOIN class_sessions (ON equal date,
time and location): each visit paired with each matching session, or
with none when no session matches. -/
def coachJoinedRows (vs : List Visit) (fn ln : String) (ys ye : ℤ) :
    List (Visit × Option (ℤ × Option ℤ × Option String)) :=
  (coachWindowVisits vs fn ln ys ye).flatMap (fun v =>
    let ms := (coachSessions vs fn ln ys ye).filter (fun s => s == sessionTuple v)
    if ms = [] then [(v, none)] else ms.map (fun s => (v, some s)))

/-- total_classes: (SELECT COUNT(*) FROM class_sessions). -/
def coachTotalClasses (vs : List Visit) (fn ln : String) (ys ye : ℤ) : ℕ :=
  (coachSessions vs fn ln ys ye).length

/-- total_student_visits: COUNT(*) over the joined rows. -/
def coachTotalStudentVisits (vs : List Visit) (fn ln : String) (ys ye : ℤ) : ℕ :=
  (coachJoinedRows vs fn ln ys ye).length

/-- unique_students: COUNT(DISTINCT client) over the joined rows. -/
def coachUniqueStudents (vs : List Visit) (fn ln : String) (ys ye : ℤ) : ℕ :=
  ((coachJoinedRows vs fn ln ys ye).map
    (·.1.client_dupont_location_id)).dedup.length

/-- The CASE expression bucketing a class time into the six time slots;
a NULL time makes every WHEN unknown, so the ELSE branch applies. -/
def timeSlotName (t : Option ℤ) : String :=
  match t with
  | some t =>
    if t / 60 < 6 then "Early Bird (Before 6 AM)"
    else if t / 60 < 9 then "Morning (6-9 AM)"
    else if t / 60 < 12 then "Late Morning (9 AM-12 PM)"
    else if t / 60 < 17 then "Afternoon (12-5 PM)"
    else if t / 60 < 19 then "Evening (5-7 PM)"
    else "Night (After 7 PM)"
  | none => "Night (After 7 PM)"

/-- The COUNT(DISTINCT date::text || time::text || location) key: NULL
(not counted) as soon as the time or the location is NULL. -/
def nonNullKey (v : Visit) : Option (ℤ × ℤ × String) :=
  match v.class_time, v.location_name with
  | some t, some l => some (v.class_date, t, l)
  | _, _ => none

/-- COUNT(DISTINCT date::text || time::text || location) within one
bucket group of the time-slot query. -/
def coachSlotCount (vs : List Visit) (fn ln : String) (ys ye : ℤ)
    (s : String) : ℕ :=
  (((coachWindowVisits vs fn ln ys ye).filter
    (fun v => timeSlotName v.class_time == s)).filterMap nonNullKey).dedup.length

/-- The time-slot query: the coach's window visits grouped by bucket
name, each with its COUNT(DISTINCT non-null session key), ORDER BY
count DESC. -/
def coachTimeSlots (vs : List Visit) (fn ln : String) (ys ye : ℤ) :
    List (String × ℕ) :=
  let cv := coachWindowVisits vs fn ln ys ye
  let slots := (cv.map (fun v => timeSlotName v.class_time)).dedup
  (slots.map (fun s =>
    (s, coachSlotCount vs fn ln ys ye s))).insertionSort (fun a b => b.2 ≤ a.2)

/-- The distinct session keys that the time-slot query can count: the
non-null (date, time, location) triples of the coach's window visits. -/
def coachNonNullKeys (vs : List Visit) (fn ln : String) (ys ye : ℤ) :
    List (ℤ × ℤ × String) :=
  (coachWindowVisits vs fn ln ys ye).filterMap nonNullKey

/-- The bucket a non-null session key falls into. -/
def keySlot (k : ℤ × ℤ × String) : String := timeSlotName (some k.2.1)

/-- TS: allTimeSlots.find(slot => slot.timeSlot.includes("Early Bird"))
?.classCount || 0.  Among the six bucket names only one contains
"Early Bird", so the lookup is by that full name. -/
def earlyMorningClassCount (vs : List Visit) (fn ln : String) (ys ye : ℤ) : ℕ :=
  (((coachTimeSlots vs fn ln ys ye).find?
    (fun p => p.1 == "Early Bird (Before 6 AM)")).map (·.2)).getD 0

/-- TS: allTimeSlots.find(slot => slot.timeSlot.includes("Night"))
?.classCount || 0; only the after-7pm bucket name contains "Night". -/
def nightClassCount (vs : List Visit) (fn ln : String) (ys ye : ℤ) : ℕ :=
  (((coachTimeSlots vs fn ln ys ye).find?
    (fun p => p.1 == "Night (After 7 PM)")).map (·.2)).getD 0

/-- totalClassesForBadges: the sum of the bucket counts. -/
def coachBadgeTotal (vs : List Visit) (fn ln : String) (ys ye : ℤ) : ℕ :=
  ((coachTimeSlots vs fn ln ys ye).map (·.2)).sum

/-- earlyMorningWarrior: some badge total and early share above 0.3. -/
def earlyMorningWarrior (vs : List Visit) (fn ln : String) (ys ye : ℤ) : Bool :=
  0 < coachBadgeTotal vs fn ln ys ye &&
  (earlyMorningClassCount vs fn ln ys ye : ℚ) / coachBadgeTotal vs fn ln ys ye
    > 3/10

/-- lateNightHero: some badge total and night share above 0.3. -/
def lateNightHero (vs : List Visit) (fn ln : String) (ys ye : ℤ) : Bool :=
  0 < coachBadgeTotal vs fn ln ys ye &&
  (nightClassCount vs fn ln ys ye : ℚ) / coachBadgeTotal vs fn ln ys ye > 3/10

/-- Formalization of the spec's "session in the before-6am bucket": a
session tuple whose (non-null) time has hour below 6. -/
def sessionBeforeSixAm (s : ℤ × Option ℤ × Option String) : Bool :=
  match s.2.1 with
  | some t => t / 60 < 6
  | none => false

/-- Formalization of the spec's "session in the after-7pm bucket": a
session tuple whose (non-null) time has hour at least 19. -/
def sessionAfterSevenPm (s : ℤ × Option ℤ × Option String) : Bool :=
  match s.2.1 with
  | some t => 19 ≤ t / 60
  | none => false

/-- Test fixture: coach A B with 12 one-visit sessions on days 1..12,
4 of them at 5:00 (before 6am), 8 at 10:00. -/
def coachFixtureEarly4 : List Visit :=
  [⟨"x", 1, some 300, some "L", some "A", some "B", false, false, none⟩,
   ⟨"x", 2, some 300, some "L", some "A", some "B", false, false, none⟩,
   ⟨"x", 3, some 300, some "L", some "A", some "B", false, false, none⟩,
   ⟨"x", 4, some 300, some "L", some "A", some "B", false, false, none⟩,
   ⟨"x", 5, some 600, some "L", some "A", some "B", false, false, none⟩,
   ⟨"x", 6, some 600, some "L", some "A", some "B", false, false, none⟩,
   ⟨"x", 7, some 600, some "L", some "A", some "B", false, false, none⟩,
   ⟨"x", 8, some 600, some "L", some "A", some "B", false, false, none⟩,
   ⟨"x", 9, some 600, some "L", some "A", some "B", false, false, none⟩,
   ⟨"x", 10, some 600, some "L", some "A", some "B", false, false, none⟩,
   ⟨"x", 11, some 600, some "L", some "A", some "B", false, false, none⟩,
   ⟨"x", 12, some 600, some "L", some "A", some "B", false, false, none⟩]

/-- Test fixture: as coachFixtureEarly4 but only 3 sessions before 6am. -/
def coachFixtureEarly3 : List Visit :=
  [⟨"x", 1, some 300, some "L", some "A", some "B", false, false, none⟩,
   ⟨"x", 2, some 300, some "L", some "A", some "B", false, false, none⟩,
   ⟨"x", 3, some 300, some "L", some "A", some "B", false, false, none⟩,
   ⟨"x", 4, some 600, some "L", some "A", some "B", false, false, none⟩,
   ⟨"x", 5, some 600, some "L", some "A", some "B", false, false, none⟩,
   ⟨"x", 6, some 600, some "L", some "A", some "B", false, false, none⟩,
   ⟨"x", 7, some 600, some "L", some "A", some "B", false, false, none⟩,
   ⟨"x", 8, some 600, some "L", some "A", some "B", false, false, none⟩,
   ⟨"x", 9, some 600, some "L", some "A", some "B", false, false, none⟩,
   ⟨"x", 10, some 600, some "L", some "A", some "B", false, false, none⟩,
   ⟨"x", 11, some 600, some "L", some "A", some "B", false, false, none⟩,
   ⟨"x", 12, some 600, some "L", some "A", some "B", false, false, none⟩]

/-- Test fixture: 4 before-6am sessions with NULL location plus 8
mid-morning sessions with a location. -/
def coachFixtureNullLoc : List Visit :=
  [⟨"x", 1, some 300, none, some "A", some "B", false, false, none⟩,
   ⟨"x", 2, some 300, none, some "A", some "B", false, false, none⟩,
   ⟨"x", 3, some 300, none, some "A", some "B", false, false, none⟩,
   ⟨"x", 4, some 300, none, some "A", some "B", false, false, none⟩,
   ⟨"x", 5, some 600, some "L", some "A", some "B", false, false, none⟩,
   ⟨"x", 6, some 600, some "L", some "A", some "B", false, false, none⟩,
   ⟨"x", 7, some 600, some "L", some "A", some "B", false, false, none⟩,
   ⟨"x", 8, some 600, some "L", some "A", some "B", false, false, none⟩,
   ⟨"x", 9, some 600, some "L", some "A", some "B", false, false, none⟩,
   ⟨"x", 10, some 600, some "L", some "A", some "B", false, false, none⟩,
   ⟨"x", 11, some 600, some "L", some "A", some "B", false, false, none⟩,
   ⟨"x", 12, some 600, some "L", some "A", some "B", false, false, none⟩]

end MadWrapped

deriving instance DecidableEq for Except

namespace MadWrapped

/-! ## Theorems -/

/-- C1: for a non-empty population S the percentile of v is the inclusive
at-most rank round(100 * count(x in S : x ≤ v) / |S|), and any member of S
that bounds all of S from above (a maximum of S) has percentile 100. -/
theorem calculatePercentile_spec (S : List ℚ) (v : ℚ) (hS : S ≠ []) :
    calculatePercentile v S =
      jsRound (100 * ((S.filter (fun x => x ≤ v)).length : ℚ) / S.length) ∧
    (v ∈ S → (∀ x ∈ S, x ≤ v) → calculatePercentile v S = 100) := by
  have hlen : S.length ≠ 0 := by
    simpa [List.length_eq_zero] using hS
  constructor
  · rw [calculatePercentile, if_neg hlen]
    congr 1
    ring
  · intro hv hmax
    have hfil : S.filter (fun x => decide (x ≤ v)) = S :=
      List.filter_eq_self.mpr (fun a ha => by simpa using hmax a ha)
    rw [calculatePercentile, if_neg hlen, hfil]
    have hq : ((S.length : ℚ) / S.length) * 100 = 100 := by
      have : (S.length : ℚ) ≠ 0 := by exact_mod_cast hlen
      field_simp
    rw [hq]
    norm_num [jsRound]

/-- Witness for C1 at the concrete population [1, 2, 3] with v = 3. -/
theorem calculatePercentile_spec_witness :
    calculatePercentile 3 [(1 : ℚ), 2, 3] = 100 := by
  have h := calculatePercentile_spec [(1 : ℚ), 2, 3] 3 (by decide)
  exact h.2 (by decide) (by decide)

/-- C3: when both cache variables are set and the entry is younger than
one hour, loadMemberStats returns the cached stats and averages
unchanged, leaves the cache state unchanged, and issues no store query
(neither the snapshot query nor the live query). -/
theorem loadMemberStats_cacheHit (st : PeerCacheState) (now : ℤ)
    (store : PeerStore) (ys ye : ℤ) (s : List MemberStats) (a : PeerAverages)
    (hs : st.memberStatsCache = some s) (ha : st.peerAveragesCache = some a)
    (hfresh : now - st.peerStatsCacheTime < PEER_STATS_CACHE_TTL_MS) :
    loadMemberStats st now store ys ye =
      .ok { stats := s, averages := a, state := st, queries := 0 } := by
  simp [loadMemberStats, hs, ha, hfresh]

/-- Witness for C3: a one-minute-old cache entry is returned as is. -/
theorem loadMemberStats_cacheHit_witness :
    loadMemberStats ⟨some [], some ⟨0, 0, 0, 0⟩, 0⟩ 60000
      ⟨.ok [], [], none⟩ 0 366 =
      .ok { stats := [], averages := ⟨0, 0, 0, 0⟩,
            state := ⟨some [], some ⟨0, 0, 0, 0⟩, 0⟩, queries := 0 } :=
  loadMemberStats_cacheHit _ 60000 _ 0 366 [] ⟨0, 0, 0, 0⟩ rfl rfl (by decide)

/-- C4: with an expired or absent cache entry, if the snapshot is empty,
or its computed_at is more than 24 hours old, or the snapshot relation
does not exist (error 42P01), and the live query succeeds, then the
live recomputation's result is returned and stored in the in-process
cache with the fresh timestamp (both the snapshot attempt and the live
query were issued). -/
theorem loadMemberStats_staleSnapshot_usesLive (st : PeerCacheState) (now : ℤ)
    (store : PeerStore) (ys ye : ℤ)
    (hmiss : st.memberStatsCache = none ∨ st.peerAveragesCache = none ∨
      PEER_STATS_CACHE_TTL_MS ≤ now - st.peerStatsCacheTime)
    (hsnap : store.mv = .ok [] ∨
      (∃ first rest, store.mv = .ok (first :: rest) ∧
        now - first.computed_at > MV_STALENESS_THRESHOLD_MS) ∨
      (∃ e, store.mv = .error e ∧ e.code = "42P01"))
    (hlive : store.liveErr = none) :
    loadMemberStats st now store ys ye =
      .ok { stats := liveStats store.visits ys ye
            averages := computeAverages (liveStats store.visits ys ye)
            state :=
              { memberStatsCache := some (liveStats store.visits ys ye)
                peerAveragesCache := some (computeAverages (liveStats store.visits ys ye))
                peerStatsCacheTime := now }
            queries := 2 } := by
  have htry : tryGetPeerStatsFromMaterializedView now store = none := by
    rcases hsnap with h | ⟨first, rest, h, hstale⟩ | ⟨e, h, hc⟩
    · simp [tryGetPeerStatsFromMaterializedView, h]
    · simp [tryGetPeerStatsFromMaterializedView, h, hstale]
    · simp [tryGetPeerStatsFromMaterializedView, h, hc]
  have hfb : loadMemberStatsFallback now store ys ye =
      .ok { stats := liveStats store.visits ys ye
            averages := computeAverages (liveStats store.visits ys ye)
            state :=
              { memberStatsCache := some (liveStats store.visits ys ye)
                peerAveragesCache := some (computeAverages (liveStats store.visits ys ye))
                peerStatsCacheTime := now }
            queries := 2 } := by
    simp [loadMemberStatsFallback, htry, loadMemberStatsLive, hlive, Except.map]
  obtain ⟨ms, pa, t⟩ := st
  rcases hmiss with h | h | h
  · simp only at h
    subst h
    simpa [loadMemberStats] using hfb
  · simp only at h
    subst h
    cases ms with
    | none => simpa [loadMemberStats] using hfb
    | some s => simpa [loadMemberStats] using hfb
  · cases ms with
    | none => simpa [loadMemberStats] using hfb
    | some s =>
      cases pa with
      | none => simpa [loadMemberStats] using hfb
      | some a =>
        simp only at h
        simpa [loadMemberStats, if_neg (not_lt.mpr h)] using hfb

/-- Witness for C4: a snapshot 25 hours old is skipped and the live
result (here, the empty population) is returned and cached. -/
theorem loadMemberStats_staleSnapshot_usesLive_witness :
    loadMemberStats ⟨none, none, 0⟩ 90000000
      ⟨.ok [⟨"m1", 5, 1, 0, 0, 0, 0, 0⟩], [], none⟩ 0 366 =
      .ok { stats := liveStats [] 0 366
            averages := computeAverages (liveStats [] 0 366)
            state :=
              { memberStatsCache := some (liveStats [] 0 366)
                peerAveragesCache := some (computeAverages (liveStats [] 0 366))
                peerStatsCacheTime := 90000000 }
            queries := 2 } :=
  loadMemberStats_staleSnapshot_usesLive ⟨none, none, 0⟩ 90000000
    ⟨.ok [⟨"m1", 5, 1, 0, 0, 0, 0, 0⟩], [], none⟩ 0 366
    (Or.inl rfl)
    (Or.inr (Or.inl ⟨⟨"m1", 5, 1, 0, 0, 0, 0, 0⟩, [], rfl, by decide⟩))
    rfl

/-- C5, counterexample: an error other than undefined_table (here
SQLSTATE 08006, a connection failure) raised by the snapshot query is
NOT re-raised by loadMemberStats; the call falls back to the live path
and succeeds. -/
theorem peerSnapshotError_not_reraised :
    loadMemberStats ⟨none, none, 0⟩ 0 ⟨.error ⟨"08006"⟩, [], none⟩ 0 366 ≠
      .error ⟨"08006"⟩ := by
  decide

/-- C5, amended: every error raised while loading the precomputed
snapshot — undefined-relation or otherwise — is intercepted and
converted into the live-computation fallback, in the peer-stats
computer and in the global-stats computer alike; errors raised by the
live query itself are re-raised to the caller. -/
theorem snapshotErrors_swallowed (st : PeerCacheState) (now : ℤ)
    (store : PeerStore) (ys ye : ℤ) (e : PgError)
    (hmiss : st.memberStatsCache = none ∨ st.peerAveragesCache = none ∨
      PEER_STATS_CACHE_TTL_MS ≤ now - st.peerStatsCacheTime)
    (hmv : store.mv = .error e) :
    (store.liveErr = none →
      loadMemberStats st now store ys ye =
        .ok { stats := liveStats store.visits ys ye
              averages := computeAverages (liveStats store.visits ys ye)
              state :=
                { memberStatsCache := some (liveStats store.visits ys ye)
                  peerAveragesCache := some (computeAverages (liveStats store.visits ys ye))
                  peerStatsCacheTime := now }
              queries := 2 }) ∧
    (∀ e', store.liveErr = some e' →
      loadMemberStats st now store ys ye = .error e') ∧
    (∀ (gst : GlobalCacheState) (gstore : GlobalStore) (e₂ : PgError),
      gst.globalStatsCache = none → gstore.mv = .error e₂ →
      computeGlobalStats gst now gstore ys ye =
        computeGlobalStatsLive now gstore ys ye) := by
  have htry : tryGetPeerStatsFromMaterializedView now store = none := by
    simp [tryGetPeerStatsFromMaterializedView, hmv]
  have hmatch : loadMemberStats st now store ys ye =
      loadMemberStatsFallback now store ys ye := by
    obtain ⟨ms, pa, t⟩ := st
    rcases hmiss with h | h | h
    · simp only at h; subst h; simp [loadMemberStats]
    · simp only at h
      subst h
      cases ms <;> simp [loadMemberStats]
    · cases ms with
      | none => simp [loadMemberStats]
      | some s =>
        cases pa with
        | none => simp [loadMemberStats]
        | some a =>
          simp only at h
          simp [loadMemberStats, if_neg (not_lt.mpr h)]
  refine ⟨fun hlive => ?_, fun e' hlive => ?_, fun gst gstore e₂ hgc hgmv => ?_⟩
  · rw [hmatch]
    simp [loadMemberStatsFallback, htry, loadMemberStatsLive, hlive, Except.map]
  · rw [hmatch]
    simp [loadMemberStatsFallback, htry, loadMemberStatsLive, hlive, Except.map]
  · have hgtry : tryGetGlobalStatsFromMaterializedView now gstore = none := by
      simp [tryGetGlobalStatsFromMaterializedView, hgmv]
    simp [computeGlobalStats, hgc, hgtry]

/-- Witness for C5's amended theorem: a connection-failure error from
the snapshot query yields the live result, not the error. -/
theorem snapshotErrors_swallowed_witness :
    loadMemberStats ⟨none, none, 0⟩ 0 ⟨.error ⟨"08006"⟩, [], none⟩ 0 366 =
      .ok { stats := liveStats [] 0 366
            averages := computeAverages (liveStats [] 0 366)
            state :=
              { memberStatsCache := some (liveStats [] 0 366)
                peerAveragesCache := some (computeAverages (liveStats [] 0 366))
                peerStatsCacheTime := 0 }
            queries := 2 } :=
  (snapshotErrors_swallowed ⟨none, none, 0⟩ 0 ⟨.error ⟨"08006"⟩, [], none⟩ 0 366
    ⟨"08006"⟩ (Or.inl rfl) rfl).1 rfl

/-! ### Gaps-and-islands correctness of the streak computation -/

/-- The chunker never produces an empty list of block lengths. -/
theorem chunksGo_ne_nil (f : ℤ → ℤ → Bool) :
    ∀ (l : List ℤ) (prev : ℤ) (cur : ℕ), chunksGo f prev cur l ≠ []
  | [], _, _ => by simp [chunksGo]
  | d :: t, prev, cur => by
    rw [chunksGo]
    split
    · exact chunksGo_ne_nil f t d (cur + 1)
    · simp

/-- Adjacent streak keys are equal exactly when the corresponding dates
are calendar-consecutive, so chunking the keys by equality is chunking
the dates by consecutiveness. -/
theorem chunksGo_eqKey_streakKeysFrom (ds : List ℤ) :
    ∀ (n prev : ℤ) (cur : ℕ),
      chunksGo isEqKey (prev - n) cur (streakKeysFrom (n + 1) ds) =
        chunksGo isSucc prev cur ds := by
  induction ds with
  | nil => intro n prev cur; rfl
  | cons d t ih =>
    intro n prev cur
    have hcond : isEqKey (prev - n) (d - (n + 1)) = isSucc prev d := by
      simp only [isEqKey, isSucc]
      exact decide_eq_decide.mpr (by omega)
    show (if isEqKey (prev - n) (d - (n + 1)) then
        chunksGo isEqKey (d - (n + 1)) (cur + 1) (streakKeysFrom (n + 1 + 1) t)
      else cur :: chunksGo isEqKey (d - (n + 1)) 1 (streakKeysFrom (n + 1 + 1) t)) =
      (if isSucc prev d then chunksGo isSucc d (cur + 1) t
       else cur :: chunksGo isSucc d 1 t)
    rw [hcond]
    cases h : isSucc prev d
    · simp only [Bool.false_eq_true, if_false]
      rw [ih (n + 1) d 1]
    · simp only [if_true]
      rw [ih (n + 1) d (cur + 1)]

/-- Chunking the streak keys by equality yields the run lengths of the
underlying dates. -/
theorem chunkLens_eqKey_streakKeys (ds : List ℤ) :
    chunkLens isEqKey (streakKeys ds) = runLengths ds := by
  cases ds with
  | nil => rfl
  | cons d t => exact chunksGo_eqKey_streakKeysFrom t 1 d 1

/-- Running the equality chunker from a seed element k consumes exactly
the leading block of k's, then chunks the remainder afresh. -/
theorem chunksGo_eqKey_takeWhile (xs : List ℤ) :
    ∀ (k : ℤ) (cur : ℕ),
      chunksGo isEqKey k cur xs =
        (cur + (xs.takeWhile (fun x => x == k)).length) ::
          chunkLens isEqKey (xs.dropWhile (fun x => x == k)) := by
  induction xs with
  | nil => intro k cur; simp [chunksGo, chunkLens]
  | cons x t ih =>
    intro k cur
    by_cases h : k = x
    · subst h
      rw [chunksGo, if_pos (by simp [isEqKey])]
      rw [ih k (cur + 1)]
      have ht : (k :: t).takeWhile (fun y => y == k) =
          k :: t.takeWhile (fun y => y == k) := by
        simp [List.takeWhile_cons]
      have hd : (k :: t).dropWhile (fun y => y == k) =
          t.dropWhile (fun y => y == k) := by
        simp [List.dropWhile_cons]
      rw [ht, hd, List.length_cons]
      congr 1
      omega
    · rw [chunksGo, if_neg (by simp [isEqKey, h])]
      have ht : (x :: t).takeWhile (fun y => y == k) = [] := by
        simp [List.takeWhile_cons]
        exact fun hxk => absurd hxk.symm h
      have hd : (x :: t).dropWhile (fun y => y == k) = x :: t := by
        simp [List.dropWhile_cons]
        exact fun hxk => absurd hxk.symm h
      rw [ht, hd]
      simp [chunkLens]

/-- Dedup of an element followed by a block of its copies and a list
not containing it. -/
theorem dedup_cons_block (k : ℤ) :
    ∀ (w : List ℤ) (r : List ℤ), (∀ x ∈ w, x = k) → k ∉ r →
      (k :: (w ++ r)).dedup = k :: r.dedup
  | [], r, _, hk => by simp [List.dedup_cons_of_not_mem hk]
  | a :: w', r, hw, hk => by
    have ha : a = k := hw a (by simp)
    subst ha
    have hmem : a ∈ a :: (w' ++ r) := by simp
    calc (a :: (a :: w' ++ r)).dedup = (a :: (w' ++ r)).dedup := by
          rw [List.cons_append]
          exact List.dedup_cons_of_mem hmem
      _ = a :: r.dedup :=
          dedup_cons_block a w' r (fun x hx => hw x (by simp [hx])) hk

/-- In a sorted list every element of the dropWhile-equal remainder is
strictly above the head. -/
theorem dropWhile_gt_of_sorted (k : ℤ) (xs : List ℤ)
    (h : List.Sorted (· ≤ ·) (k :: xs)) :
    ∀ x ∈ xs.dropWhile (fun y => y == k), k < x := by
  have hle : ∀ x ∈ xs, k ≤ x := (List.sorted_cons.mp h).1
  have hxs : List.Sorted (· ≤ ·) xs := (List.sorted_cons.mp h).2
  have hsub : (xs.dropWhile (fun y => y == k)).Sublist xs :=
    List.dropWhile_sublist _
  cases hr : xs.dropWhile (fun y => y == k) with
  | nil => simp
  | cons a r' =>
    have hne : xs.dropWhile (fun y => y == k) ≠ [] := by simp [hr]
    have hhead := List.head_dropWhile_not (fun y => y == k) xs hne
    have hak : a ≠ k := by
      have : (xs.dropWhile (fun y => y == k)).head hne = a := by simp [hr]
      rw [this] at hhead
      simpa using hhead
    have hain : a ∈ xs := hsub.mem (by simp [hr])
    have hka : k < a := lt_of_le_of_ne (hle a hain) (Ne.symm hak)
    have hsr : List.Sorted (· ≤ ·) (a :: r') := by
      rw [← hr]
      exact List.Pairwise.sublist hsub hxs
    intro x hx
    rcases List.mem_cons.mp hx with hxa | hxr
    · exact hxa ▸ hka
    · exact lt_of_lt_of_le hka ((List.sorted_cons.mp hsr).1 x hxr)

/-- For a sorted list, the dedup-and-count view of the grouped counts
splits off the head's block. -/
theorem sorted_dedup_counts_cons (k : ℤ) (xs : List ℤ)
    (h : List.Sorted (· ≤ ·) (k :: xs)) :
    (k :: xs).dedup.map (fun j => (k :: xs).count j) =
      (1 + (xs.takeWhile (fun x => x == k)).length) ::
        ((xs.dropWhile (fun x => x == k)).dedup.map
          (fun j => (xs.dropWhile (fun x => x == k)).count j)) := by
  have hwr : xs.takeWhile (fun x => x == k) ++ xs.dropWhile (fun x => x == k)
      = xs := List.takeWhile_append_dropWhile _ _
  have hw : ∀ x ∈ xs.takeWhile (fun x => x == k), x = k := fun x hx => by
    simpa using List.mem_takeWhile_imp hx
  have hgt := dropWhile_gt_of_sorted k xs h
  have hknr : k ∉ xs.dropWhile (fun y => y == k) := fun hk =>
    lt_irrefl k (hgt k hk)
  have hded : (k :: xs).dedup = k :: (xs.dropWhile (fun y => y == k)).dedup := by
    conv_lhs => rw [← hwr]
    exact dedup_cons_block k _ _ hw hknr
  have hcountk : (k :: xs).count k =
      1 + (xs.takeWhile (fun x => x == k)).length := by
    conv_lhs => rw [← hwr]
    rw [List.count_cons_self, List.count_append]
    have h1 : (xs.takeWhile (fun x => x == k)).count k =
        (xs.takeWhile (fun x => x == k)).length :=
      List.count_eq_length.mpr (fun b hb => (hw b hb).symm)
    have h2 : (xs.dropWhile (fun y => y == k)).count k = 0 :=
      List.count_eq_zero.mpr hknr
    omega
  have hcountj : ∀ j ∈ (xs.dropWhile (fun y => y == k)).dedup,
      (k :: xs).count j = (xs.dropWhile (fun y => y == k)).count j := by
    intro j hj
    have hjr : j ∈ xs.dropWhile (fun y => y == k) := List.mem_dedup.mp hj
    have hjk : j ≠ k := fun hjk => lt_irrefl k (hjk ▸ hgt j hjr)
    have hjw : j ∉ xs.takeWhile (fun x => x == k) := fun hjw => hjk (hw j hjw)
    conv_lhs => rw [← hwr]
    rw [List.count_cons_of_ne hjk, List.count_append,
      List.count_eq_zero.mpr hjw, Nat.zero_add]
  rw [hded, List.map_cons, hcountk]
  congr 1
  exact List.map_congr_left hcountj

/-- For a sorted list, GROUP BY + COUNT (dedup and count) produces
exactly the lengths of the maximal blocks of equal adjacent elements. -/
theorem sorted_dedup_counts : ∀ (xs : List ℤ), List.Sorted (· ≤ ·) xs →
    xs.dedup.map (fun j => xs.count j) = chunkLens isEqKey xs
  | [], _ => rfl
  | k :: xs, h => by
    have hr : List.Sorted (· ≤ ·) (xs.dropWhile (fun y => y == k)) :=
      List.Pairwise.sublist (List.dropWhile_sublist _) (List.sorted_cons.mp h).2
    have ih := sorted_dedup_counts (xs.dropWhile (fun y => y == k)) hr
    rw [sorted_dedup_counts_cons k xs h, ih,
      show chunkLens isEqKey (k :: xs) = chunksGo isEqKey k 1 xs from rfl,
      chunksGo_eqKey_takeWhile xs k 1]
termination_by xs => xs.length
decreasing_by
  exact Nat.lt_succ_of_le (List.dropWhile_sublist _).length_le

/-- Strictly increasing dates give (weakly) sorted streak keys. -/
theorem streakKeysFrom_chain' (ds : List ℤ) :
    ∀ n : ℤ, List.Chain' (· < ·) ds →
      List.Chain' (· ≤ ·) (streakKeysFrom n ds) := by
  induction ds with
  | nil => intro n _; simp [streakKeysFrom]
  | cons d t ih =>
    intro n h
    cases t with
    | nil => simp [streakKeysFrom]
    | cons d' t' =>
      have h1 : d < d' := (List.chain'_cons.mp h).1
      have h2 : List.Chain' (· < ·) (d' :: t') := (List.chain'_cons.mp h).2
      have h3 := ih (n + 1) h2
      show List.Chain' (· ≤ ·)
        ((d - n) :: (d' - (n + 1)) :: streakKeysFrom (n + 1 + 1) t')
      rw [List.chain'_cons]
      exact ⟨by omega, h3⟩

/-- C2 core: on a strictly sorted non-empty date list, the SQL
gaps-and-islands computation COALESCE(MAX(group count), 1) equals the
length of the longest maximal run of calendar-consecutive dates. -/
theorem longestStreakSql_eq_longestRun (ds : List ℤ)
    (hsorted : List.Chain' (· < ·) ds) (hne : ds ≠ []) :
    longestStreakSql ds = longestRun ds := by
  have hkeys : List.Sorted (· ≤ ·) (streakKeys ds) :=
    List.chain'_iff_pairwise.mp (streakKeysFrom_chain' ds 1 hsorted)
  have h1 : streakLengths ds = chunkLens isEqKey (streakKeys ds) :=
    sorted_dedup_counts (streakKeys ds) hkeys
  have h2 : chunkLens isEqKey (streakKeys ds) = runLengths ds :=
    chunkLens_eqKey_streakKeys ds
  have h3 : runLengths ds ≠ [] := by
    cases ds with
    | nil => exact absurd rfl hne
    | cons d t => exact chunksGo_ne_nil isSucc t d 1
  rw [longestStreakSql, h1, h2, if_neg h3]
  rfl

/-- The distinct attended dates, sorted, are strictly increasing. -/
theorem sortedAttendedDates_chain' (cv : List Visit) :
    List.Chain' (· < ·) (sortedAttendedDates cv) := by
  have hnd : (attendedDates cv).Nodup := List.nodup_dedup _
  have hperm : ((attendedDates cv).insertionSort (· ≤ ·)).Perm
      (attendedDates cv) := List.perm_insertionSort _ _
  have hnd' : (sortedAttendedDates cv).Nodup := hperm.symm.nodup hnd
  have hsorted : List.Sorted (· ≤ ·) (sortedAttendedDates cv) :=
    List.sorted_insertionSort _ _
  exact List.chain'_iff_pairwise.mpr (hsorted.lt_of_le hnd')

/-- C2, amended with non-emptiness: for a member with at least one
attended date in the window, the longest streak computed by the
per-member query (the longestStreak field of computeClientStats) equals
the length of the longest maximal run of calendar-consecutive dates in
the distinct sorted set of attended dates; and on the date schema
D1, D1+1, D1+2, D3, D3+1 with D3 > D1+3 that longest streak is 3. -/
theorem clientLongestStreak_spec (vs : List Visit) (cid : String) (ys ye : ℤ)
    (hne : sortedAttendedDates (clientWindowVisits vs cid ys ye) ≠ []) :
    longestStreakSql (sortedAttendedDates (clientWindowVisits vs cid ys ye)) =
      longestRun (sortedAttendedDates (clientWindowVisits vs cid ys ye)) ∧
    (∀ dOne dThree : ℤ, dOne + 3 < dThree →
      longestStreakSql [dOne, dOne + 1, dOne + 2, dThree, dThree + 1] = 3) := by
  constructor
  · exact longestStreakSql_eq_longestRun _ (sortedAttendedDates_chain' _) hne
  · intro dOne dThree hgt
    have hs : List.Chain' (· < ·) [dOne, dOne + 1, dOne + 2, dThree, dThree + 1] := by
      simp only [List.chain'_cons, List.chain'_singleton, and_true]
      omega
    rw [longestStreakSql_eq_longestRun _ hs (by simp)]
    show (chunksGo isSucc dOne 1 [dOne + 1, dOne + 2, dThree, dThree + 1]).foldr
      max 0 = 3
    rw [chunksGo, if_pos (by simp [isSucc])]
    rw [chunksGo, if_pos (by simp only [isSucc]; exact decide_eq_true (by omega))]
    rw [chunksGo, if_neg (by simp only [isSucc, decide_eq_true_eq]; omega)]
    rw [chunksGo, if_pos (by simp [isSucc])]
    rw [chunksGo]
    simp

/-- Witness for C2's amended theorem, on a member attending on days
10, 11, 12, 20, 21: the streak is 3. -/
theorem clientLongestStreak_spec_witness :
    longestStreakSql [(10 : ℤ), 11, 12, 20, 21] = 3 :=
  (clientLongestStreak_spec
    [⟨"m", 10, none, none, none, none, false, false, none⟩] "m" 0 366
    (by decide)).2 10 20 (by decide)

/-- C2, counterexample to the unrestricted claim: a member whose only
window visit is cancelled has no attended dates, the longest maximal
run of consecutive attended dates has length 0, yet the SQL
COALESCE(MAX(...), 1) reports a streak of 1. -/
theorem longestStreak_zeroAttended_cex :
    longestStreakSql (sortedAttendedDates (clientWindowVisits
      [⟨"m", 5, none, none, none, none, true, false, none⟩] "m" 0 366)) ≠
    longestRun (sortedAttendedDates (clientWindowVisits
      [⟨"m", 5, none, none, none, none, true, false, none⟩] "m" 0 366)) := by
  decide

/-! ### Early-bird score: per-member path versus live population path -/

/-- C6, counterexample: a member with one attended 6:00 class and one
attended class with NULL class_time scores 100 in the per-member path
(denominator: attended with non-null class_time) but 50 in the live
population path (denominator: all attended), so the two paths do not
compute one single early-bird definition. -/
theorem earlyBird_paths_disagree :
    (computeClientStats [⟨"m", "M", ""⟩]
      [⟨"m", 10, some 360, none, none, none, false, false, none⟩,
       ⟨"m", 11, none, none, none, none, false, false, none⟩] "m" 0 366).map
      (·.earlyBirdScore) ≠
      some (jsRound ((liveRowFor
        [⟨"m", 10, some 360, none, none, none, false, false, none⟩,
         ⟨"m", 11, none, none, none, none, false, false, none⟩] "m" 0
           366).earlyBirdScore)) := by
  have h1 : (computeClientStats [⟨"m", "M", ""⟩]
      [⟨"m", 10, some 360, none, none, none, false, false, none⟩,
       ⟨"m", 11, none, none, none, none, false, false, none⟩] "m" 0 366).map
      (·.earlyBirdScore) = some 100 := by
    simp [computeClientStats, List.find?, clientEarlyBird, clientWindowVisits,
      Visit.attended, isEarlyHour]
    norm_num [pgRound]
  have h2 : jsRound ((liveRowFor
      [⟨"m", 10, some 360, none, none, none, false, false, none⟩,
       ⟨"m", 11, none, none, none, none, false, false, none⟩] "m" 0
        366).earlyBirdScore) = 50 := by
    simp [liveRowFor, clientWindowVisits, Visit.attended, isEarlyHour]
    norm_num [jsRound]
  rw [h1, h2]
  decide

/-- C6, amended: for a member all of whose attended window visits carry
a non-null class_time, the early-bird score of the per-member computer
equals the rounded early-bird score of the live population
recomputation (the glossary definition); the two paths differ only in
their denominators (attended with non-null class_time versus all
attended), which then coincide. -/
theorem earlyBird_paths_agree (clients : List Client) (vs : List Visit)
    (cid : String) (ys ye : ℤ)
    (hfound : (clients.find? (fun c => c.dupont_location_id == cid)).isSome = true)
    (htime : ∀ v ∈ clientWindowVisits vs cid ys ye,
      v.attended = true → v.class_time.isSome = true) :
    (computeClientStats clients vs cid ys ye).map (·.earlyBirdScore) =
      some (jsRound ((liveRowFor vs cid ys ye).earlyBirdScore)) := by
  obtain ⟨c, hc⟩ := Option.isSome_iff_exists.mp hfound
  have hcv : ((clientWindowVisits vs cid ys ye).filter
      (fun v => v.class_time.isSome)).filter (·.attended) =
      (clientWindowVisits vs cid ys ye).filter (·.attended) := by
    rw [List.filter_filter]
    exact List.filter_congr (fun v hv => by
      cases ha : v.attended
      · simp [ha]
      · simp [ha, htime v hv ha])
  have hnum : ((clientWindowVisits vs cid ys ye).filter
      (fun v => v.class_time.isSome)).filter
        (fun v => v.attended && isEarlyHour v.class_time) =
      (clientWindowVisits vs cid ys ye).filter
        (fun v => v.attended && v.class_time.isSome && isEarlyHour v.class_time) := by
    rw [List.filter_filter]
    exact List.filter_congr (fun v hv => by
      cases ha : v.attended <;> cases hs : v.class_time.isSome <;>
        cases he : isEarlyHour v.class_time <;> simp [ha, hs, he])
  have heq : clientEarlyBird (clientWindowVisits vs cid ys ye) =
      jsRound ((liveRowFor vs cid ys ye).earlyBirdScore) := by
    rw [clientEarlyBird, liveRowFor]
    simp only [hcv, hnum]
    by_cases h0 :
        ((clientWindowVisits vs cid ys ye).filter (·.attended)).length = 0
    · simp [h0, jsRound]
      norm_num
    · rw [if_neg h0]
      simp only [h0, if_neg h0, if_false]
      have hq : (0 : ℚ) ≤
          (((clientWindowVisits vs cid ys ye).filter
            (fun v => v.attended && v.class_time.isSome &&
              isEarlyHour v.class_time)).length * 100 : ℚ) /
            ((clientWindowVisits vs cid ys ye).filter (·.attended)).length := by
        positivity
      rw [pgRound, if_pos hq]
      rfl
  simp [computeClientStats, hc, heq]

/-- Witness for C6's amended theorem: one attended 6:00 class, both
paths score 100. -/
theorem earlyBird_paths_agree_witness :
    (computeClientStats [⟨"m", "M", ""⟩]
      [⟨"m", 10, some 360, none, none, none, false, false, none⟩] "m" 0
        366).map (·.earlyBirdScore) =
      some (jsRound ((liveRowFor
        [⟨"m", 10, some 360, none, none, none, false, false, none⟩] "m" 0
          366).earlyBirdScore)) :=
  earlyBird_paths_agree [⟨"m", "M", ""⟩]
    [⟨"m", 10, some 360, none, none, none, false, false, none⟩] "m" 0 366
    (by decide) (by decide)

/-! ### Members with zero attended classes in the window -/

/-- C7: a member that resolves in the directory but has zero attended
classes in the window gets early-bird score 0, perfect weeks 0, total
classes 0, total late bookings 0, and the ("Unknown", 0) favorite
location sentinel. -/
theorem computeClientStats_zeroAttended (clients : List Client)
    (vs : List Visit) (cid : String) (ys ye : ℤ)
    (hfound : (clients.find? (fun c => c.dupont_location_id == cid)).isSome = true)
    (hzero : (clientWindowVisits vs cid ys ye).filter (·.attended) = []) :
    (computeClientStats clients vs cid ys ye).map (fun r =>
      (r.earlyBirdScore, r.perfectMadWeeks, r.totalClasses,
        r.totalLateBookings, r.favoriteLocation)) =
      some (0, 0, 0, 0, ("Unknown", 0)) := by
  obtain ⟨c, hc⟩ := Option.isSome_iff_exists.mp hfound
  have hall : ∀ v ∈ clientWindowVisits vs cid ys ye, v.attended = false := by
    intro v hv
    have := List.filter_eq_nil_iff.mp hzero v hv
    simpa using this
  have h1 : clientEarlyBird (clientWindowVisits vs cid ys ye) = 0 := by
    rw [clientEarlyBird]
    have hna : ((clientWindowVisits vs cid ys ye).filter
        (fun v => v.class_time.isSome)).filter (·.attended) = [] :=
      List.filter_eq_nil_iff.mpr (fun v hv => by
        simp [hall v (List.mem_of_mem_filter hv)])
    simp [hna]
  have h2 : perfectWeeksOf (clientWindowVisits vs cid ys ye) = 0 := by
    rw [perfectWeeksOf]
    have hwk : ∀ wk : ℤ, (clientWindowVisits vs cid ys ye).filter
        (fun v => v.attended && weekOf v.class_date == wk) = [] := fun wk =>
      List.filter_eq_nil_iff.mpr (fun v hv => by simp [hall v hv])
    simp [hwk]
  have h3 : (clientWindowVisits vs cid ys ye).filter isLateBooking = [] :=
    List.filter_eq_nil_iff.mpr (fun v hv => by
      simp [isLateBooking, hall v hv])
  have h4 : locationCounts (clientWindowVisits vs cid ys ye) = [] := by
    rw [locationCounts]
    have hav : (clientWindowVisits vs cid ys ye).filter
        (fun v => v.attended && v.location_name.isSome) = [] :=
      List.filter_eq_nil_iff.mpr (fun v hv => by simp [hall v hv])
    simp [hav]
  simp [computeClientStats, hc, h1, h2, h3, h4, favoriteLocationOf, hzero]

/-- Witness for C7: a member whose only window visit is cancelled. -/
theorem computeClientStats_zeroAttended_witness :
    (computeClientStats [⟨"m", "M", ""⟩]
      [⟨"m", 5, none, none, none, none, true, false, none⟩] "m" 0 366).map
      (fun r => (r.earlyBirdScore, r.perfectMadWeeks, r.totalClasses,
        r.totalLateBookings, r.favoriteLocation)) =
      some (0, 0, 0, 0, ("Unknown", 0)) :=
  computeClientStats_zeroAttended [⟨"m", "M", ""⟩]
    [⟨"m", 5, none, none, none, none, true, false, none⟩] "m" 0 366
    (by decide) (by decide)

/-- C10: the same zero-attended member gets longestStreak 1, not 0: the
SQL coalesces the empty streak aggregation to 1. -/
theorem computeClientStats_zeroAttended_streak (clients : List Client)
    (vs : List Visit) (cid : String) (ys ye : ℤ)
    (hfound : (clients.find? (fun c => c.dupont_location_id == cid)).isSome = true)
    (hzero : (clientWindowVisits vs cid ys ye).filter (·.attended) = []) :
    (computeClientStats clients vs cid ys ye).map (·.longestStreak) =
      some 1 := by
  obtain ⟨c, hc⟩ := Option.isSome_iff_exists.mp hfound
  have hdates : sortedAttendedDates (clientWindowVisits vs cid ys ye) = [] := by
    rw [sortedAttendedDates, attendedDates, hzero]
    rfl
  simp [computeClientStats, hc, hdates, longestStreakSql, streakLengths,
    streakKeys, streakKeysFrom]

/-- Witness for C10: the cancelled-only member has streak 1. -/
theorem computeClientStats_zeroAttended_streak_witness :
    (computeClientStats [⟨"m", "M", ""⟩]
      [⟨"m", 5, none, none, none, none, true, false, none⟩] "m" 0 366).map
      (·.longestStreak) = some 1 :=
  computeClientStats_zeroAttended_streak [⟨"m", "M", ""⟩]
    [⟨"m", 5, none, none, none, none, true, false, none⟩] "m" 0 366
    (by decide) (by decide)

/-! ### Coach session counting -/

/-- A flatMap whose body is everywhere a singleton is a map. -/
theorem flatMap_eq_map_of_singleton {α β : Type} (l : List α) (f : α → List β)
    (g : α → β) (h : ∀ a ∈ l, f a = [g a]) : l.flatMap f = l.map g := by
  induction l with
  | nil => rfl
  | cons a t ih =>
    rw [List.flatMap_cons, h a (by simp),
      ih (fun a ha => h a (by simp [ha])), List.map_cons]
    rfl

/-- Filtering a duplicate-free list for one of its members keeps
exactly that member. -/
theorem filter_eq_singleton_of_nodup {α : Type} [BEq α] [LawfulBEq α] :
    ∀ (l : List α) (a : α), l.Nodup → a ∈ l →
      l.filter (fun x => x == a) = [a]
  | [], a, _, h => absurd h (by simp)
  | b :: t, a, hnd, hmem => by
    rcases List.mem_cons.mp hmem with rfl | hat
    · have hnotin : a ∉ t := (List.nodup_cons.mp hnd).1
      rw [List.filter_cons, if_pos (by simp)]
      have ht : t.filter (fun x => x == a) = [] :=
        List.filter_eq_nil_iff.mpr (fun x hx => by
          simp only [beq_iff_eq]
          exact fun hxa => hnotin (hxa ▸ hx))
      rw [ht]
    · have hba : ¬ (b == a) = true := by
        simp only [beq_iff_eq]
        rintro rfl
        exact (List.nodup_cons.mp hnd).1 hat
      rw [List.filter_cons, if_neg hba]
      exact filter_eq_singleton_of_nodup t a (List.nodup_cons.mp hnd).2 hat

/-- Each attended coach visit matches exactly its own session tuple in
the deduplicated class_sessions rows, so the LEFT JOIN pairs every
visit with exactly one session. -/
theorem coachJoinedRows_eq_map (vs : List Visit) (fn ln : String) (ys ye : ℤ) :
    coachJoinedRows vs fn ln ys ye =
      (coachWindowVisits vs fn ln ys ye).map
        (fun v => (v, some (sessionTuple v))) := by
  apply flatMap_eq_map_of_singleton
  intro v hv
  have hmem : sessionTuple v ∈ coachSessions vs fn ln ys ye :=
    List.mem_dedup.mpr (List.mem_map_of_mem sessionTuple hv)
  have hnd : (coachSessions vs fn ln ys ye).Nodup := by
    rw [coachSessions]
    exact List.nodup_dedup _
  have h1 : (coachSessions vs fn ln ys ye).filter
      (fun s => s == sessionTuple v) = [sessionTuple v] :=
    filter_eq_singleton_of_nodup _ _ hnd hmem
  rw [h1]
  simp

/-- C8: totalClasses is the number of distinct (class_date, class_time,
location_name) session tuples with at least one attended visit of the
coach in the window, totalStudentVisits is the number of those attended
visits, and uniqueStudents is the number of distinct member ids among
them. -/
theorem coachStats_counts_spec (vs : List Visit) (fn ln : String) (ys ye : ℤ) :
    coachTotalClasses vs fn ln ys ye =
      ((coachWindowVisits vs fn ln ys ye).map sessionTuple).toFinset.card ∧
    coachTotalStudentVisits vs fn ln ys ye =
      (coachWindowVisits vs fn ln ys ye).length ∧
    coachUniqueStudents vs fn ln ys ye =
      ((coachWindowVisits vs fn ln ys ye).map
        (·.client_dupont_location_id)).toFinset.card := by
  refine ⟨?_, ?_, ?_⟩
  · rw [coachTotalClasses, coachSessions, List.card_toFinset]
  · rw [coachTotalStudentVisits, coachJoinedRows_eq_map, List.length_map]
  · rw [coachUniqueStudents, coachJoinedRows_eq_map, List.card_toFinset,
      List.map_map]
    rfl

/-! ### Coach time-slot buckets and badges -/

/-- A visit with a non-null session key falls in the bucket of that
key's time. -/
theorem keySlot_of_nonNullKey (v : Visit) (x : ℤ × ℤ × String)
    (h : nonNullKey v = some x) : keySlot x = timeSlotName v.class_time := by
  rw [nonNullKey] at h
  cases ht : v.class_time with
  | none => rw [ht] at h; simp at h
  | some t =>
    cases hl : v.location_name with
    | none => rw [ht, hl] at h; simp at h
    | some l =>
      rw [ht, hl] at h
      simp only [Option.some.injEq] at h
      rw [← h, keySlot]

/-- A visit with a non-null session key has that key's components as
session tuple. -/
theorem sessionTuple_of_nonNullKey (v : Visit) (x : ℤ × ℤ × String)
    (h : nonNullKey v = some x) :
    sessionTuple v = (x.1, some x.2.1, some x.2.2) := by
  rw [nonNullKey] at h
  cases ht : v.class_time with
  | none => rw [ht] at h; simp at h
  | some t =>
    cases hl : v.location_name with
    | none => rw [ht, hl] at h; simp at h
    | some l =>
      rw [ht, hl] at h
      simp only [Option.some.injEq] at h
      rw [← h, sessionTuple, ht, hl]

/-- A non-null key is in the before-6am bucket iff its hour is below 6. -/
theorem keySlot_earlyBird_iff (k : ℤ × ℤ × String) :
    keySlot k = "Early Bird (Before 6 AM)" ↔ k.2.1 / 60 < 6 := by
  simp only [keySlot, timeSlotName]
  split_ifs with h1 h2 h3 h4 h5
  · exact iff_of_true rfl h1
  · exact iff_of_false (by decide) h1
  · exact iff_of_false (by decide) h1
  · exact iff_of_false (by decide) h1
  · exact iff_of_false (by decide) h1
  · exact iff_of_false (by decide) h1

/-- A non-null key is in the after-7pm bucket iff its hour is at least
19. -/
theorem keySlot_night_iff (k : ℤ × ℤ × String) :
    keySlot k = "Night (After 7 PM)" ↔ 19 ≤ k.2.1 / 60 := by
  simp only [keySlot, timeSlotName]
  split_ifs with h1 h2 h3 h4 h5
  · exact iff_of_false (by decide) (by omega)
  · exact iff_of_false (by decide) (by omega)
  · exact iff_of_false (by decide) (by omega)
  · exact iff_of_false (by decide) (by omega)
  · exact iff_of_false (by decide) (by omega)
  · exact iff_of_true rfl (by omega)

/-- The distinct-key count of one bucket group is the number of
non-null session keys falling in that bucket. -/
theorem coachSlotCount_eq_card (vs : List Visit) (fn ln : String) (ys ye : ℤ)
    (s : String) :
    coachSlotCount vs fn ln ys ye s =
      ((coachNonNullKeys vs fn ln ys ye).toFinset.filter
        (fun k => keySlot k = s)).card := by
  rw [coachSlotCount, ← List.card_toFinset]
  congr 1
  ext x
  simp only [List.mem_toFinset, List.mem_filterMap, List.mem_filter,
    Finset.mem_filter, coachNonNullKeys]
  constructor
  · rintro ⟨v, ⟨hv, hp⟩, hk⟩
    refine ⟨⟨v, hv, hk⟩, ?_⟩
    rw [keySlot_of_nonNullKey v x hk]
    simpa using hp
  · rintro ⟨⟨v, hv, hk⟩, hs⟩
    refine ⟨v, ⟨hv, ?_⟩, hk⟩
    rw [keySlot_of_nonNullKey v x hk] at hs
    simpa using hs

/-- TS's allTimeSlots.find(...)?.classCount || 0 lookup by bucket name
returns the bucket's distinct-key count (0 when the bucket is absent,
in which case its count is 0 anyway). -/
theorem coachTimeSlots_lookup (vs : List Visit) (fn ln : String) (ys ye : ℤ)
    (s : String) :
    ((((coachTimeSlots vs fn ln ys ye).find?
      (fun p => p.1 == s)).map (·.2)).getD 0) =
      coachSlotCount vs fn ln ys ye s := by
  have hperm : (coachTimeSlots vs fn ln ys ye).Perm
      ((((coachWindowVisits vs fn ln ys ye).map
        (fun v => timeSlotName v.class_time)).dedup).map
        (fun s' => (s', coachSlotCount vs fn ln ys ye s'))) := by
    rw [coachTimeSlots]
    exact List.perm_insertionSort _ _
  cases hf : (coachTimeSlots vs fn ln ys ye).find? (fun p => p.1 == s) with
  | some pr =>
    have hmem : pr ∈ coachTimeSlots vs fn ln ys ye :=
      List.mem_of_find?_eq_some hf
    have hps : pr.1 = s := by simpa using List.find?_some hf
    obtain ⟨s', _, heq⟩ := List.mem_map.mp (hperm.mem_iff.mp hmem)
    have hss : s' = s := by rw [← heq] at hps; simpa using hps
    subst hss
    rw [← heq]
    simp
  | none =>
    have hnone := List.find?_eq_none.mp hf
    simp only [Option.map_none', Option.getD_none]
    by_contra h0
    have hpos : coachSlotCount vs fn ln ys ye s ≠ 0 := fun h => h0 (by rw [h])
    have hex : ∃ v ∈ coachWindowVisits vs fn ln ys ye,
        timeSlotName v.class_time = s := by
      rw [coachSlotCount] at hpos
      have hne2 : ((coachWindowVisits vs fn ln ys ye).filter
          (fun v => timeSlotName v.class_time == s)).filterMap nonNullKey ≠ [] := by
        intro hnil
        rw [hnil] at hpos
        simp at hpos
      obtain ⟨x, hx⟩ := List.exists_mem_of_ne_nil _ hne2
      obtain ⟨v, hv, _⟩ := List.mem_filterMap.mp hx
      have hv2 := List.mem_filter.mp hv
      exact ⟨v, hv2.1, by simpa using hv2.2⟩
    obtain ⟨v, hv, hslot⟩ := hex
    have hsin : s ∈ ((coachWindowVisits vs fn ln ys ye).map
        (fun v => timeSlotName v.class_time)).dedup :=
      List.mem_dedup.mpr (List.mem_map.mpr ⟨v, hv, hslot⟩)
    have hpair : (s, coachSlotCount vs fn ln ys ye s) ∈
        coachTimeSlots vs fn ln ys ye :=
      hperm.mem_iff.mpr (List.mem_map.mpr ⟨s, hsin, rfl⟩)
    have := hnone _ hpair
    simp at this

/-- The sum of the bucket counts is the number of distinct non-null
session keys: the buckets partition the keys by their time slot. -/
theorem coachBadgeTotal_eq_card (vs : List Visit) (fn ln : String) (ys ye : ℤ) :
    coachBadgeTotal vs fn ln ys ye =
      (coachNonNullKeys vs fn ln ys ye).toFinset.card := by
  have hperm : ((coachTimeSlots vs fn ln ys ye).map (·.2)).Perm
      (((((coachWindowVisits vs fn ln ys ye).map
        (fun v => timeSlotName v.class_time)).dedup).map
        (fun s' => (s', coachSlotCount vs fn ln ys ye s'))).map (·.2)) := by
    apply List.Perm.map
    rw [coachTimeSlots]
    exact List.perm_insertionSort _ _
  rw [coachBadgeTotal, hperm.sum_eq, List.map_map]
  have hbody : ((fun p : String × ℕ => p.2) ∘
      (fun s' => (s', coachSlotCount vs fn ln ys ye s'))) =
      fun s' => coachSlotCount vs fn ln ys ye s' := rfl
  rw [hbody]
  rw [List.map_congr_left (fun s _ => coachSlotCount_eq_card vs fn ln ys ye s)]
  rw [← List.sum_toFinset _ (List.nodup_dedup _)]
  have hdedup : (((coachWindowVisits vs fn ln ys ye).map
      (fun v => timeSlotName v.class_time)).dedup).toFinset =
      (((coachWindowVisits vs fn ln ys ye).map
        (fun v => timeSlotName v.class_time))).toFinset := by
    ext a
    simp [List.mem_dedup]
  rw [hdedup]
  have hsub : ((coachNonNullKeys vs fn ln ys ye).toFinset.image keySlot) ⊆
      ((coachWindowVisits vs fn ln ys ye).map
        (fun v => timeSlotName v.class_time)).toFinset := by
    intro b hb
    obtain ⟨x, hx, hbx⟩ := Finset.mem_image.mp hb
    obtain ⟨v, hv, hk⟩ :=
      List.mem_filterMap.mp (List.mem_toFinset.mp hx)
    rw [List.mem_toFinset, List.mem_map]
    exact ⟨v, hv, by rw [← keySlot_of_nonNullKey v x hk, hbx]⟩
  have hzero : ∀ b ∈ ((coachWindowVisits vs fn ln ys ye).map
      (fun v => timeSlotName v.class_time)).toFinset,
      b ∉ (coachNonNullKeys vs fn ln ys ye).toFinset.image keySlot →
      ((coachNonNullKeys vs fn ln ys ye).toFinset.filter
        (fun k => keySlot k = b)).card = 0 := by
    intro b _ hb
    rw [Finset.card_eq_zero, Finset.filter_eq_empty_iff]
    intro x hx hkx
    exact hb (Finset.mem_image.mpr ⟨x, hx, hkx⟩)
  rw [← Finset.sum_subset hsub hzero]
  exact (Finset.card_eq_sum_card_image keySlot
    (coachNonNullKeys vs fn ln ys ye).toFinset).symm

/-- The embedding of a non-null session key as a session tuple is
injective. -/
theorem sessionInj_injective : Function.Injective
    (fun k : ℤ × ℤ × String =>
      ((k.1, some k.2.1, some k.2.2) : ℤ × Option ℤ × Option String)) := by
  rintro ⟨a1, a2, a3⟩ ⟨b1, b2, b3⟩ h
  simp only [Prod.mk.injEq, Option.some.injEq] at h
  obtain ⟨h1, h2, h3⟩ := h
  simp [h1, h2, h3]

/-- When every attended coach visit in the window has a non-null time
and location, the session tuples are exactly the embedded non-null
keys. -/
theorem sessionTuples_eq_image (vs : List Visit) (fn ln : String) (ys ye : ℤ)
    (hnn : ∀ v ∈ coachWindowVisits vs fn ln ys ye,
      v.class_time.isSome = true ∧ v.location_name.isSome = true) :
    ((coachWindowVisits vs fn ln ys ye).map sessionTuple).toFinset =
      (coachNonNullKeys vs fn ln ys ye).toFinset.image
        (fun k => (k.1, some k.2.1, some k.2.2)) := by
  ext x
  simp only [List.mem_toFinset, List.mem_map, Finset.mem_image,
    List.mem_filterMap, coachNonNullKeys]
  constructor
  · rintro ⟨v, hv, rfl⟩
    obtain ⟨ht, hl⟩ := hnn v hv
    obtain ⟨t, htv⟩ := Option.isSome_iff_exists.mp ht
    obtain ⟨l, hlv⟩ := Option.isSome_iff_exists.mp hl
    refine ⟨(v.class_date, t, l), ⟨v, hv, ?_⟩, ?_⟩
    · rw [nonNullKey, htv, hlv]
    · rw [sessionTuple, htv, hlv]
  · rintro ⟨k, ⟨v, hv, hk⟩, rfl⟩
    exact ⟨v, hv, sessionTuple_of_nonNullKey v k hk⟩

/-- Under the non-null hypothesis, totalClasses counts exactly the
distinct non-null session keys. -/
theorem coachTotalClasses_eq_card_of_nonNull (vs : List Visit)
    (fn ln : String) (ys ye : ℤ)
    (hnn : ∀ v ∈ coachWindowVisits vs fn ln ys ye,
      v.class_time.isSome = true ∧ v.location_name.isSome = true) :
    coachTotalClasses vs fn ln ys ye =
      (coachNonNullKeys vs fn ln ys ye).toFinset.card := by
  rw [coachTotalClasses, coachSessions, ← List.card_toFinset,
    sessionTuples_eq_image vs fn ln ys ye hnn,
    Finset.card_image_of_injective _ sessionInj_injective]

/-- Under the non-null hypothesis, filtering the distinct sessions by a
tuple predicate counts the non-null keys satisfying the matching key
predicate. -/
theorem coachSessions_filter_card (vs : List Visit) (fn ln : String)
    (ys ye : ℤ)
    (hnn : ∀ v ∈ coachWindowVisits vs fn ln ys ye,
      v.class_time.isSome = true ∧ v.location_name.isSome = true)
    (p : ℤ × Option ℤ × Option String → Bool) (q : ℤ × ℤ × String → Prop)
    [DecidablePred q]
    (hpq : ∀ k : ℤ × ℤ × String, p (k.1, some k.2.1, some k.2.2) = true ↔ q k) :
    ((coachSessions vs fn ln ys ye).filter p).length =
      ((coachNonNullKeys vs fn ln ys ye).toFinset.filter q).card := by
  have hnd : ((coachSessions vs fn ln ys ye).filter p).Nodup :=
    List.Nodup.filter p (by rw [coachSessions]; exact List.nodup_dedup _)
  rw [← hnd.dedup, ← List.card_toFinset, List.toFinset_filter]
  have hsess : (coachSessions vs fn ln ys ye).toFinset =
      ((coachWindowVisits vs fn ln ys ye).map sessionTuple).toFinset := by
    ext a
    rw [coachSessions]
    simp [List.mem_dedup]
  rw [hsess, sessionTuples_eq_image vs fn ln ys ye hnn, Finset.filter_image,
    Finset.card_image_of_injective _ sessionInj_injective]
  congr 1
  exact Finset.filter_congr (fun k _ => hpq k)

/-- C9, amended: for a coach with at least one session, all of whose
attended window visits have non-null class_time and location_name, the
earlyMorningWarrior badge is true iff the share of before-6am sessions
among all sessions is strictly above 0.3, and lateNightHero likewise
for the after-7pm bucket.  (Without the non-null restriction the badge
denominators drop the sessions with NULL time or location, see the
counterexample.) -/
theorem coachBadges_ratio_spec (vs : List Visit) (fn ln : String) (ys ye : ℤ)
    (hnn : ∀ v ∈ coachWindowVisits vs fn ln ys ye,
      v.class_time.isSome = true ∧ v.location_name.isSome = true)
    (hpos : 0 < coachTotalClasses vs fn ln ys ye) :
    (earlyMorningWarrior vs fn ln ys ye = true ↔
      (((coachSessions vs fn ln ys ye).filter sessionBeforeSixAm).length : ℚ) /
        coachTotalClasses vs fn ln ys ye > 3/10) ∧
    (lateNightHero vs fn ln ys ye = true ↔
      (((coachSessions vs fn ln ys ye).filter sessionAfterSevenPm).length : ℚ) /
        coachTotalClasses vs fn ln ys ye > 3/10) := by
  have htc := coachTotalClasses_eq_card_of_nonNull vs fn ln ys ye hnn
  have hbt : coachBadgeTotal vs fn ln ys ye = coachTotalClasses vs fn ln ys ye := by
    rw [coachBadgeTotal_eq_card, htc]
  have hearly : earlyMorningClassCount vs fn ln ys ye =
      ((coachSessions vs fn ln ys ye).filter sessionBeforeSixAm).length := by
    rw [earlyMorningClassCount, coachTimeSlots_lookup, coachSlotCount_eq_card]
    exact (coachSessions_filter_card vs fn ln ys ye hnn sessionBeforeSixAm
      (fun k => keySlot k = "Early Bird (Before 6 AM)")
      (fun k => by
        show sessionBeforeSixAm (k.1, some k.2.1, some k.2.2) = true ↔
          keySlot k = "Early Bird (Before 6 AM)"
        rw [keySlot_earlyBird_iff]
        simp [sessionBeforeSixAm])).symm
  have hnight : nightClassCount vs fn ln ys ye =
      ((coachSessions vs fn ln ys ye).filter sessionAfterSevenPm).length := by
    rw [nightClassCount, coachTimeSlots_lookup, coachSlotCount_eq_card]
    exact (coachSessions_filter_card vs fn ln ys ye hnn sessionAfterSevenPm
      (fun k => keySlot k = "Night (After 7 PM)")
      (fun k => by
        show sessionAfterSevenPm (k.1, some k.2.1, some k.2.2) = true ↔
          keySlot k = "Night (After 7 PM)"
        rw [keySlot_night_iff]
        simp [sessionAfterSevenPm])).symm
  constructor
  · rw [earlyMorningWarrior, hbt, hearly]
    simp only [Bool.and_eq_true, decide_eq_true_eq]
    exact ⟨fun h => h.2, fun h => ⟨hpos, h⟩⟩
  · rw [lateNightHero, hbt, hnight]
    simp only [Bool.and_eq_true, decide_eq_true_eq]
    exact ⟨fun h => h.2, fun h => ⟨hpos, h⟩⟩

/-- Witness for C9's amended theorem: with 4 of 12 sessions before 6am
(33% > 30%) the badge is true; with 3 of 12 (25% ≤ 30%) it is false. -/
theorem coachBadges_ratio_spec_witness :
    earlyMorningWarrior coachFixtureEarly4 "A" "B" 0 366 = true ∧
    earlyMorningWarrior coachFixtureEarly3 "A" "B" 0 366 = false := by
  constructor
  · apply (coachBadges_ratio_spec coachFixtureEarly4 "A" "B" 0 366
      (by decide) (by decide)).1.mpr
    have hnum : ((coachSessions coachFixtureEarly4 "A" "B" 0 366).filter
        sessionBeforeSixAm).length = 4 := by decide
    have hden : coachTotalClasses coachFixtureEarly4 "A" "B" 0 366 = 12 := by
      decide
    rw [hnum, hden]
    norm_num
  · have h := (coachBadges_ratio_spec coachFixtureEarly3 "A" "B" 0 366
      (by decide) (by decide)).1
    have hnum : ((coachSessions coachFixtureEarly3 "A" "B" 0 366).filter
        sessionBeforeSixAm).length = 3 := by decide
    have hden : coachTotalClasses coachFixtureEarly3 "A" "B" 0 366 = 12 := by
      decide
    rw [hnum, hden] at h
    refine Bool.eq_false_iff.mpr (fun hb => ?_)
    have := h.mp hb
    norm_num at this

/-- C9, counterexample to the unrestricted claim: 4 before-6am sessions
with NULL location plus 8 mid-morning located sessions.  The share of
before-6am sessions among all 12 sessions is 1/3 > 0.3, but the badge
is false because the time-slot query's COUNT(DISTINCT key) drops the
NULL-location keys (early bucket count 0 of badge total 8). -/
theorem coachBadge_nullLocation_cex :
    ¬ (earlyMorningWarrior coachFixtureNullLoc "A" "B" 0 366 = true ↔
      (((coachSessions coachFixtureNullLoc "A" "B" 0 366).filter
        sessionBeforeSixAm).length : ℚ) /
        coachTotalClasses coachFixtureNullLoc "A" "B" 0 366 > 3/10) := by
  have h1 : earlyMorningClassCount coachFixtureNullLoc "A" "B" 0 366 = 0 := by
    decide
  have h2 : coachBadgeTotal coachFixtureNullLoc "A" "B" 0 366 = 8 := by
    decide
  have hbadge : earlyMorningWarrior coachFixtureNullLoc "A" "B" 0 366 = false := by
    rw [earlyMorningWarrior, h1, h2]
    norm_num
  have hnum : ((coachSessions coachFixtureNullLoc "A" "B" 0 366).filter
      sessionBeforeSixAm).length = 4 := by decide
  have hden : coachTotalClasses coachFixtureNullLoc "A" "B" 0 366 = 12 := by
    decide
  rw [hbadge, hnum, hden]
  intro h
  have := h.mpr (by norm_num)
  simp at this

end MadWrapped
